import Mathlib

/-!
# Verification of two VLC plugin adapters

* `modules/codec/avcodec/va.c`: the chroma mapping `vlc_va_GetChroma` and the
  session lifecycle `vlc_va_New` / `vlc_va_Delete` of the hardware
  acceleration dispatcher.
* `modules/access/cdda/info.c`: the title formatter `CDDAFormatStr`.

Pointers are natural numbers (addresses), `NULL` is `none`, C strings are
lists of characters read up to their first NUL, and an execution that leaves
defined behaviour (out-of-bounds access, NULL dereference) yields `none`.
-/

namespace VLC

/-! ## va.c : data model -/

/-- The libavutil pixel formats that `vlc_va_GetChroma` distinguishes, one
constructor per enumerator named in va.c, plus `AV_PIX_FMT_RGB24` and a
constructor `other` standing for every remaining value of the C enum. -/
inductive PixelFormat where
  | AV_PIX_FMT_YUV420P
  | AV_PIX_FMT_YUV422P
  | AV_PIX_FMT_YUV444P
  | AV_PIX_FMT_YUVJ420P
  | AV_PIX_FMT_YUVJ422P
  | AV_PIX_FMT_YUVJ444P
  | AV_PIX_FMT_RGB24
  | AV_PIX_FMT_VAAPI_VLD
  | AV_PIX_FMT_DXVA2_VLD
  | AV_PIX_FMT_VDA_VLD
  | AV_PIX_FMT_VDPAU
  | other (code : Nat)
  deriving DecidableEq, Repr

/-- The type `vlc_fourcc_t` is a 32-bit unsigned integer. -/
abbrev vlc_fourcc_t := Nat

/-- The five fourcc constants of `vlc_fourcc.h` that va.c returns.  The header
is not part of the slice, so their numeric values are parameters. -/
structure vlc_fourcc_codes where
  VLC_CODEC_YV12 : vlc_fourcc_t
  VLC_CODEC_UYVY : vlc_fourcc_t
  VLC_CODEC_VDPAU_VIDEO_420 : vlc_fourcc_t
  VLC_CODEC_VDPAU_VIDEO_422 : vlc_fourcc_t
  VLC_CODEC_VDPAU_VIDEO_444 : vlc_fourcc_t
  deriving DecidableEq, Repr

/-- The fourcc values of a little-endian build, `VLC_FOURCC(a,b,c,d)` being
`a | b << 8 | c << 16 | d << 24`; used for concrete evaluation only. -/
def fourcc_le : vlc_fourcc_codes where
  VLC_CODEC_YV12 := 0x32315659
  VLC_CODEC_UYVY := 0x59565955
  VLC_CODEC_VDPAU_VIDEO_420 := 0x30564456
  VLC_CODEC_VDPAU_VIDEO_422 := 0x32564456
  VLC_CODEC_VDPAU_VIDEO_444 := 0x34564456

/-- The libavutil macro `AV_VERSION_INT(a, b, c)`, which is
`a << 16 | b << 8 | c`. -/
def AV_VERSION_INT (a b c : Nat) : Nat :=
  a <<< 16 ||| b <<< 8 ||| c

/-- The libavutil that va.c is built against: the value of the macro
`LIBAVUTIL_VERSION_INT`.  `PixelFormat` has the enumerator `AV_PIX_FMT_VDPAU`,
which libavutil declares from version 52.4.0 on, so the builds are those of
that version or later. -/
structure libavutil_build where
  LIBAVUTIL_VERSION_INT : Nat
  declares_vdpau : AV_VERSION_INT 52 4 0 ≤ LIBAVUTIL_VERSION_INT

open PixelFormat in
/-- The function `vlc_va_GetChroma` of va.c (lines 33-70): an outer switch on
the hardware format, an inner switch on the software format for VDPAU, and
`return 0` in both default cases.  The case of VDA_VLD is compiled when
`LIBAVUTIL_VERSION_INT >= AV_VERSION_INT(53, 14, 0)` (line 45) and the case of
VDPAU when `LIBAVUTIL_VERSION_INT >= AV_VERSION_INT(52, 4, 0)` (line 49); a
format whose case is not compiled reaches the outer default. -/
def vlc_va_GetChroma (b : libavutil_build) (k : vlc_fourcc_codes)
    (hwfmt swfmt : PixelFormat) : vlc_fourcc_t :=
  match hwfmt with
  | AV_PIX_FMT_VAAPI_VLD => k.VLC_CODEC_YV12
  | AV_PIX_FMT_DXVA2_VLD => k.VLC_CODEC_YV12
  | AV_PIX_FMT_VDA_VLD =>
    if AV_VERSION_INT 53 14 0 ≤ b.LIBAVUTIL_VERSION_INT then k.VLC_CODEC_UYVY
    else 0
  | AV_PIX_FMT_VDPAU =>
    if AV_VERSION_INT 52 4 0 ≤ b.LIBAVUTIL_VERSION_INT then
      match swfmt with
      | AV_PIX_FMT_YUVJ444P => k.VLC_CODEC_VDPAU_VIDEO_444
      | AV_PIX_FMT_YUV444P => k.VLC_CODEC_VDPAU_VIDEO_444
      | AV_PIX_FMT_YUVJ422P => k.VLC_CODEC_VDPAU_VIDEO_422
      | AV_PIX_FMT_YUV422P => k.VLC_CODEC_VDPAU_VIDEO_422
      | AV_PIX_FMT_YUVJ420P => k.VLC_CODEC_VDPAU_VIDEO_420
      | AV_PIX_FMT_YUV420P => k.VLC_CODEC_VDPAU_VIDEO_420
      | _ => 0
    else 0
  | _ => 0

/-- The value `VLC_SUCCESS` of `vlc_common.h`. -/
def VLC_SUCCESS : Int := 0

/-- A loadable backend as va.c sees it: the addresses of its two entry points
(`pf_activate`, `pf_deactivate`) and the value its open function returns for
the arguments `(va, avctx, pix_fmt, fmt, p_sys)`. -/
structure module_t where
  pf_activate : Nat
  pf_deactivate : Nat
  open_result : Nat → Nat → PixelFormat → Nat → Nat → Int

/-- The session object `vlc_va_t`: its own address and the `module` field,
the only field va.c reads or writes. -/
structure vlc_va_t where
  self : Nat
  module : Option module_t

/-- The calls that leave va.c, in the order they are made. -/
inductive Event where
  | call_open (func va avctx : Nat) (pix_fmt : PixelFormat) (fmt p_sys : Nat)
  | call_close (func va avctx : Nat)
  | object_release (va : Nat)
  deriving DecidableEq, Repr

/-- The observable state threaded through the lifecycle functions. -/
structure VaState where
  trace : List Event
  deriving DecidableEq, Repr

/-- The argument list that `vlc_va_New` hands to the probe callback. -/
structure StartArgs where
  va : Nat
  ctx : Nat
  pix_fmt : PixelFormat
  fmt : Nat
  p_sys : Nat

/-- The argument list that `vlc_va_Delete` hands to the deinit callback. -/
structure StopArgs where
  va : Nat
  ctx : Nat

/-- The function `vlc_va_Start` of va.c (lines 72-83): unpack the five
arguments and return `open(va, ctx, pix_fmt, fmt, p_sys)`. -/
def vlc_va_Start (func : module_t) (ap : StartArgs) (s : VaState) :
    Int × VaState :=
  (func.open_result ap.va ap.ctx ap.pix_fmt ap.fmt ap.p_sys,
   { s with trace := s.trace ++
      [Event.call_open func.pf_activate ap.va ap.ctx ap.pix_fmt ap.fmt ap.p_sys] })

/-- The function `vlc_va_Stop` of va.c (lines 85-92): unpack the two
arguments and call `close(va, ctx)`. -/
def vlc_va_Stop (func : module_t) (ap : StopArgs) (s : VaState) : VaState :=
  { s with trace := s.trace ++ [Event.call_close func.pf_deactivate ap.va ap.ctx] }

/-- Modelled from the spec: `vlc_object_create` of the VLC core, which is not
in the slice.  "Allocates a session object owned by the caller"; va.c tests the
result against NULL, so the outcome of the allocation (`none` or the address
of the fresh object) is an input. -/
def vlc_object_create (fresh : Option Nat) : Option vlc_va_t :=
  fresh.map fun a => { self := a, module := none }

/-- Modelled from the spec: `vlc_object_release` of the VLC core, which is
not in the slice; the session object is given back. -/
def vlc_object_release (va : vlc_va_t) (s : VaState) : VaState :=
  { s with trace := s.trace ++ [Event.object_release va.self] }

/-- Modelled from the spec: `vlc_module_load` of the VLC core, which is not in
the slice.  "Consults a configuration-supplied ordered list of candidate
backend implementations.  For each candidate, invokes its probe/start entry
point ...  First candidate whose probe succeeds becomes the session's
backend"; with no successful candidate there is no module. -/
def vlc_module_load {α : Type} (candidates : List module_t)
    (probe : module_t → α → VaState → Int × VaState) (ap : α) (s : VaState) :
    Option module_t × VaState :=
  match candidates with
  | [] => (none, s)
  | cand :: rest =>
    match probe cand ap s with
    | (ret, s1) =>
      if ret = VLC_SUCCESS then (some cand, s1)
      else vlc_module_load rest probe ap s1

/-- Modelled from the spec: `vlc_module_unload` of the VLC core, which is not
in the slice.  "Invokes the backend's stop entry point with (session,
decodeContext), unconditionally, exactly once."  Unloading a NULL module is a
caller bug and has no defined result. -/
def vlc_module_unload {β : Type} (module : Option module_t)
    (deinit : module_t → β → VaState → VaState) (ap : β) (s : VaState) :
    Option VaState :=
  match module with
  | none => none
  | some m => some (deinit m ap s)

/-- The function `vlc_va_New` of va.c (lines 94-110).  `fresh` is the outcome
of `vlc_object_create` and `candidates` the ordered backends that the module
bank offers for capability "hw decoder" under `$avcodec-hw`. -/
def vlc_va_New (fresh : Option Nat) (candidates : List module_t)
    (avctx : Nat) (pix_fmt : PixelFormat) (fmt p_sys : Nat) (s : VaState) :
    Option vlc_va_t × VaState :=
  match vlc_object_create fresh with
  | none => (none, s)
  | some va =>
    match vlc_module_load candidates vlc_va_Start
        { va := va.self, ctx := avctx, pix_fmt := pix_fmt, fmt := fmt, p_sys := p_sys } s with
    | (none, s1) => (none, vlc_object_release va s1)
    | (some m, s1) => (some { va with module := some m }, s1)

/-- The function `vlc_va_Delete` of va.c (lines 112-116): unload the module
through `vlc_va_Stop`, then release the session object. -/
def vlc_va_Delete (va : vlc_va_t) (avctx : Nat) (s : VaState) : Option VaState :=
  match vlc_module_unload va.module vlc_va_Stop { va := va.self, ctx := avctx } s with
  | none => none
  | some s1 => some (vlc_object_release va s1)

/-- The open calls that probing the candidates `l` in order leaves in the
trace, each with the arguments `(va, avctx, pix_fmt, fmt, p_sys)`. -/
def open_events (l : List module_t) (va avctx : Nat) (pix_fmt : PixelFormat)
    (fmt p_sys : Nat) : List Event :=
  l.map fun c => Event.call_open c.pf_activate va avctx pix_fmt fmt p_sys

/-- Number of backend open (probe) calls in a trace. -/
def open_calls (t : List Event) : Nat :=
  t.countP fun e => match e with
    | Event.call_open .. => true
    | _ => false

/-- Number of backend close (stop) calls in a trace. -/
def close_calls (t : List Event) : Nat :=
  t.countP fun e => match e with
    | Event.call_close .. => true
    | _ => false

/-- Number of session objects released in a trace. -/
def release_calls (t : List Event) : Nat :=
  t.countP fun e => match e with
    | Event.object_release _ => true
    | _ => false

/-! ## info.c : data model -/

/-- The NUL character that ends a C string. -/
def NUL : Char := Char.ofNat 0

/-- The C string held in a character array: what precedes its first NUL. -/
def c_str (a : List Char) : List Char :=
  a.takeWhile fun c => c != NUL

/-- The C library function `strlen`. -/
def strlen (a : List Char) : Nat :=
  (c_str a).length

/-- The CD-Text fields that `CDDAFormatStr` reads (libcdio `cdtext_field_t`). -/
inductive cdtext_field_t where
  | CDTEXT_DISCID
  | CDTEXT_GENRE
  | CDTEXT_MESSAGE
  | CDTEXT_PERFORMER
  | CDTEXT_TITLE
  deriving DecidableEq, Repr

/-- The libcdio structure `cdtext_t`: an array of possibly-NULL strings. -/
structure cdtext_t where
  field : cdtext_field_t → Option (List Char)

/-- The libcddb structure `cddb_track_t`, restricted to the fields read. -/
structure cddb_track_t where
  title : Option (List Char)
  artist : Option (List Char)
  ext_data : Option (List Char)
  deriving DecidableEq, Repr

/-- The libcddb structure `cddb_disc_t`, restricted to the fields read;
`discid` and `year` are `unsigned int`. -/
structure cddb_disc_t where
  artist : Option (List Char)
  title : Option (List Char)
  genre : Option (List Char)
  category : Nat
  discid : Nat
  year : Nat
  deriving DecidableEq, Repr

/-- The part of `cdda_data_t` (cdda.h) that `CDDAFormatStr` reads.  The two
libcdio queries on `p_cdio` are given as the tables they return (`lsn_t` and
`lba_t` are 32-bit signed). -/
structure cdda_data_t where
  p_cdtext : Nat → Option cdtext_t
  b_cdtext_prefer : Bool
  b_cddb_enabled : Bool
  cddb_disc : Option cddb_disc_t
  psz_mcn : Option (List Char)
  i_tracks : Nat
  cdio_get_track_lsn : Nat → Int
  cdio_get_track_lba : Nat → Int

/-- What info.c is compiled and linked against: the `HAVE_LIBCDDB` switch,
the VLC core function `secstotimestr` (the string it leaves in its buffer),
the libcddb accessor `cddb_disc_get_track` and the libcddb table
`CDDB_CATEGORY`.  None of them is defined in the slice. -/
structure cdda_env where
  HAVE_LIBCDDB : Bool
  secstotimestr : Int → List Char
  cddb_disc_get_track : Option cddb_disc_t → Int → Option cddb_track_t
  CDDB_CATEGORY : Nat → Option (List Char)

/-- The libcdio constant `CDIO_INVALID_TRACK`. -/
def CDIO_INVALID_TRACK : Nat := 0xFF

/-- The libcdio constant `CDIO_CDROM_LEADOUT_TRACK`. -/
def CDIO_CDROM_LEADOUT_TRACK : Nat := 0xAA

/-- The libcdio constant `CDIO_CD_FRAMES_PER_SEC`. -/
def CDIO_CD_FRAMES_PER_SEC : Nat := 75

/-- The size of the static buffer `temp_str`. -/
def TEMP_STR_SIZE : Nat := 256

/-- The macro `TEMP_STR_LEN`, which is `TEMP_STR_SIZE-1`. -/
def TEMP_STR_LEN : Nat := TEMP_STR_SIZE - 1

/-- The local state of the loop of `CDDAFormatStr`: the contents of the
array `temp_str`, the write pointer `tp` as an offset into it, and the flag
`saw_control_prefix`. -/
structure FmtState where
  temp_str : List Char
  tp : Nat
  ( saw_control_prefix : Bool)
  deriving DecidableEq, Repr

/-- The statement `*tp++ = c`; writing outside the array is undefined. -/
def put_char (c : Char) (s : FmtState) : Option FmtState :=
  if s.tp < s.temp_str.length then
    some { s with temp_str := s.temp_str.set s.tp c, tp := s.tp + 1 }
  else none

/-- Offset of the first NUL of the array `mem` at or after offset `start`;
`none` when the search runs off the array. -/
def find_nul (mem : List Char) (start : Nat) : Option Nat :=
  if (mem.drop start).contains NUL then some (start + strlen (mem.drop start))
  else none

/-- The C library function `strncat(dest, src, n)` on the array `mem`, `dest`
being an offset into it: locate the end of the destination string, copy at
most `n` characters of `src` there and add a NUL.  Reading or writing outside
the array is undefined. -/
def strncat (mem : List Char) (dest : Nat) (src : List Char) (n : Nat) :
    Option (List Char) :=
  match find_nul mem dest with
  | none => none
  | some e =>
    let k := min (strlen src) n
    if e + k < mem.length then
      some (mem.take e ++ ((c_str src).take k ++ [NUL]) ++ mem.drop (e + k + 1))
    else none

/-- The third argument `TEMP_STR_LEN-(tp-temp_str)` of the two `strncat`
calls, converted to `size_t` (64 bits). -/
def strncat_room (tp : Nat) : Nat :=
  (((TEMP_STR_LEN : Int) - (tp : Int)) % (2 ^ 64 : Int)).toNat

/-- The macro `add_format_str_info(val)` (lines 462-474): nothing at all
happens for a NULL `val`, the flag included; `len` is an `unsigned int`. -/
def add_format_str_info (val : Option (List Char)) (s : FmtState) :
    Option FmtState :=
  match val with
  | none => some s
  | some str =>
    let len := strlen str % 2 ^ 32
    if len != 0 then
      match strncat s.temp_str s.tp str (strncat_room s.tp) with
      | none => none
      | some mem => some { temp_str := mem, tp := s.tp + len, saw_control_prefix := false }
    else some { s with saw_control_prefix := false }

/-- The macro `add_format_num_info(val, fmt)` (lines 476-487), given the text
that `sprintf` produces: it must fit `num_str[10]` with its NUL. -/
def add_format_num_info (num_str : List Char) (s : FmtState) : Option FmtState :=
  if num_str.length < 10 then
    let len := strlen num_str
    if len != 0 then
      match strncat s.temp_str s.tp num_str (strncat_room s.tp) with
      | none => none
      | some mem => some { temp_str := mem, tp := s.tp + len, saw_control_prefix := false }
    else some { s with saw_control_prefix := false }
  else none

/-- The text of a `printf` conversion `%d`, `%0Nd` or `%Nd` of an `int`. -/
def sprintf_d (zero_pad : Bool) (width : Nat) (v : Int) : List Char :=
  let digits := Nat.toDigits 10 v.natAbs
  let sign := if v < 0 then ['-'] else []
  let fill := width - (sign.length + digits.length)
  if zero_pad then sign ++ List.replicate fill '0' ++ digits
  else List.replicate fill ' ' ++ sign ++ digits

/-- The text of a `printf` conversion `%x` of an `unsigned int`. -/
def sprintf_x (v : Nat) : List Char :=
  Nat.toDigits 16 (v % 2 ^ 32)

/-- An `unsigned int` passed where `printf` expects an `int`. -/
def unsigned_as_int (v : Nat) : Int :=
  if v % 2 ^ 32 < 2 ^ 31 then ((v % 2 ^ 32 : Nat) : Int)
  else ((v % 2 ^ 32 : Nat) : Int) - 2 ^ 32

/-- The function `want_cddb_info` (lines 489-501). -/
def want_cddb_info (env : cdda_env) (p_cdda : cdda_data_t)
    (psz_cdtext : Option (List Char)) : Bool :=
  if env.HAVE_LIBCDDB then
    psz_cdtext.isNone ||
      (!p_cdda.b_cdtext_prefer && p_cdda.b_cddb_enabled && p_cdda.cddb_disc.isSome)
  else false

/-- The expression `p_cdtext[i] && p_cdtext[i]->field[f]` together with the
assignment of that field to `psz`; `psz` stays NULL otherwise. -/
def cdtext_psz (p_cdda : cdda_data_t) (i : Nat) (f : cdtext_field_t) :
    Option (List Char) :=
  match p_cdda.p_cdtext i with
  | none => none
  | some t => t.field f

/-- The label `format_str:` (lines 735-738). -/
def goto_format_str (psz : Option (List Char)) (s : FmtState) : Option FmtState :=
  match psz with
  | none => some s
  | some str => add_format_str_info (some str) s

/-- The labels `not_special:` and `default:` (lines 740-745). -/
def goto_not_special (c : Char) (s : FmtState) : Option FmtState :=
  match put_char '%' s with
  | none => none
  | some s1 =>
    match put_char c s1 with
    | none => none
    | some s2 => some { s2 with saw_control_prefix := false }

/-- The case `S` (lines 707-718): the lead-out LBA as `unsigned int`, divided
by the frames per second. -/
def case_S (env : cdda_env) (p_cdda : cdda_data_t) (s : FmtState) :
    Option FmtState :=
  let i_track_frames : Nat :=
    (p_cdda.cdio_get_track_lba CDIO_CDROM_LEADOUT_TRACK % (2 ^ 32 : Int)).toNat
  let i_duration : Int := ((i_track_frames / CDIO_CD_FRAMES_PER_SEC : Nat) : Int)
  add_format_str_info (some (env.secstotimestr i_duration)) s

/-- The switch of `CDDAFormatStr` (lines 550-746), reached when the flag is
set or the character is a percent sign.  Both `HAVE_LIBCDDB` variants of the
cases are given; `C` and `Y` exist in the CDDB build only.  Dereferencing a
NULL `cddb.disc` is undefined. -/
def CDDAFormatStr_switch (env : cdda_env) (p_cdda : cdda_data_t)
    (psz_mrl : Option (List Char)) (i_track : Nat) (c : Char) (s : FmtState) :
    Option FmtState :=
  match c with
  | '%' =>
    if FmtState.saw_control_prefix s then
      match put_char '%' s with
      | none => none
      | some s1 => some { s1 with saw_control_prefix := false }
    else some { s with saw_control_prefix := true }
  | 'a' =>
    let psz := cdtext_psz p_cdda 0 cdtext_field_t.CDTEXT_PERFORMER
    if want_cddb_info env p_cdda psz then
      match p_cdda.cddb_disc with
      | none => none
      | some disc => goto_format_str disc.artist s
    else goto_format_str psz s
  | 'A' =>
    let psz := cdtext_psz p_cdda 0 cdtext_field_t.CDTEXT_TITLE
    if want_cddb_info env p_cdda psz then
      match p_cdda.cddb_disc with
      | none => none
      | some disc => goto_format_str disc.title s
    else goto_format_str psz s
  | 'C' =>
    if env.HAVE_LIBCDDB then
      if !p_cdda.b_cddb_enabled then goto_not_special c s
      else
        match p_cdda.cddb_disc with
        | none => some s
        | some disc => add_format_str_info (env.CDDB_CATEGORY disc.category) s
    else goto_not_special c s
  | 'G' =>
    let psz := cdtext_psz p_cdda 0 cdtext_field_t.CDTEXT_GENRE
    if want_cddb_info env p_cdda psz then
      match p_cdda.cddb_disc with
      | none => none
      | some disc => goto_format_str disc.genre s
    else goto_format_str psz s
  | 'I' =>
    let psz := cdtext_psz p_cdda 0 cdtext_field_t.CDTEXT_DISCID
    if env.HAVE_LIBCDDB then
      if want_cddb_info env p_cdda psz then
        match p_cdda.cddb_disc with
        | none => none
        | some disc => add_format_num_info (sprintf_x disc.discid) s
      else
        match psz with
        | none => some s
        | some str => add_format_str_info (some str) s
    else
      match psz with
      | none => some s
      | some str => add_format_str_info (some str) s
  | 'Y' =>
    if env.HAVE_LIBCDDB then
      if !p_cdda.b_cddb_enabled then goto_not_special c s
      else
        match p_cdda.cddb_disc with
        | none => some s
        | some disc =>
          add_format_num_info (sprintf_d false 5 (unsigned_as_int disc.year)) s
    else goto_not_special c s
  | 't' =>
    if i_track % 256 = CDIO_INVALID_TRACK then some s
    else if env.HAVE_LIBCDDB then
      if p_cdda.b_cddb_enabled && p_cdda.cddb_disc.isSome then
        match env.cddb_disc_get_track p_cdda.cddb_disc ((i_track % 256 : Nat) - 1 : Int) with
        | none => add_format_str_info psz_mrl s
        | some t =>
          match t.title with
          | none => add_format_str_info psz_mrl s
          | some title => add_format_str_info (some title) s
      else
        match cdtext_psz p_cdda (i_track % 256) cdtext_field_t.CDTEXT_TITLE with
        | none => add_format_str_info psz_mrl s
        | some title => add_format_str_info (some title) s
    else
      match cdtext_psz p_cdda (i_track % 256) cdtext_field_t.CDTEXT_TITLE with
      | none => goto_format_str psz_mrl s
      | some title => goto_format_str (some title) s
  | 'p' =>
    if i_track % 256 = CDIO_INVALID_TRACK then some s
    else
      let psz := cdtext_psz p_cdda (i_track % 256) cdtext_field_t.CDTEXT_PERFORMER
      if want_cddb_info env p_cdda psz then
        match env.cddb_disc_get_track p_cdda.cddb_disc ((i_track % 256 : Nat) - 1 : Int) with
        | none => goto_format_str psz s
        | some t =>
          match t.artist with
          | none => goto_format_str psz s
          | some artist => goto_format_str (some artist) s
      else goto_format_str psz s
  | 'e' =>
    if i_track % 256 = CDIO_INVALID_TRACK then some s
    else
      let psz := cdtext_psz p_cdda (i_track % 256) cdtext_field_t.CDTEXT_MESSAGE
      if want_cddb_info env p_cdda psz then
        match env.cddb_disc_get_track p_cdda.cddb_disc ((i_track % 256 : Nat) - 1 : Int) with
        | none => goto_format_str psz s
        | some t =>
          match t.ext_data with
          | none => goto_format_str psz s
          | some ext_data => goto_format_str (some ext_data) s
      else goto_format_str psz s
  | 's' =>
    if i_track % 256 ≠ CDIO_INVALID_TRACK then
      let i_track_frames : Nat :=
        ((p_cdda.cdio_get_track_lsn ((i_track % 256 + 1) % 256)
          - p_cdda.cdio_get_track_lsn (i_track % 256)) % (2 ^ 32 : Int)).toNat
      let i_duration : Int := ((i_track_frames / CDIO_CD_FRAMES_PER_SEC : Nat) : Int)
      add_format_str_info (some (env.secstotimestr i_duration)) s
    else case_S env p_cdda s
  | 'S' => case_S env p_cdda s
  | 'M' => add_format_str_info psz_mrl s
  | 'm' => add_format_str_info p_cdda.psz_mcn s
  | 'n' => add_format_num_info (sprintf_d false 0 ((p_cdda.i_tracks % 256 : Nat) : Int)) s
  | 'T' => add_format_num_info (sprintf_d true 2 ((i_track % 256 : Nat) : Int)) s
  | _ => goto_not_special c s

/-- One iteration of the loop of `CDDAFormatStr` (lines 539-747) on the
character `format_str[i]`. -/
def CDDAFormatStr_step (env : cdda_env) (p_cdda : cdda_data_t)
    (psz_mrl : Option (List Char)) (i_track : Nat) (s : FmtState) (c : Char) :
    Option FmtState :=
  if (! FmtState.saw_control_prefix s) && c != '%' then
    match put_char c s with
    | none => none
    | some s1 => some { s1 with saw_control_prefix := false }
  else CDDAFormatStr_switch env p_cdda psz_mrl i_track c s

/-- The loop of `CDDAFormatStr` over the characters of the format string. -/
def CDDAFormatStr_loop (env : cdda_env) (p_cdda : cdda_data_t)
    (psz_mrl : Option (List Char)) (i_track : Nat) :
    List Char → FmtState → Option FmtState
  | [], s => some s
  | c :: rest, s =>
    match CDDAFormatStr_step env p_cdda psz_mrl i_track s c with
    | none => none
    | some s1 => CDDAFormatStr_loop env p_cdda psz_mrl i_track rest s1

/-- The C library function `strdup` applied to the array `mem`: a copy of the
string it holds; running off the array in search of the NUL is undefined.
Failure of the allocation is not modelled. -/
def strdup (mem : List Char) : Option (List Char) :=
  if mem.contains NUL then some (c_str mem) else none

/-- The state after `memset(temp_str, 0, TEMP_STR_SIZE)` and the
initialisations of `tp` and `saw_control_prefix`. -/
def CDDAFormatStr_init : FmtState :=
  { temp_str := List.replicate TEMP_STR_SIZE NUL, tp := 0, saw_control_prefix := false }

/-- The function `CDDAFormatStr` of info.c (lines 525-749).  The unused
parameter `p_access` is dropped; `format_str` is read up to `strlen`. -/
def CDDAFormatStr (env : cdda_env) (p_cdda : cdda_data_t)
    (format_str : List Char) (psz_mrl : Option (List Char)) (i_track : Nat) :
    Option (List Char) :=
  match CDDAFormatStr_loop env p_cdda psz_mrl i_track (c_str format_str)
      CDDAFormatStr_init with
  | none => none
  | some s => strdup s.temp_str

/-! ## Concrete inputs used to exercise the definitions -/

/-- A build against libavutil 54.3.0, which compiles both guarded cases. -/
def libavutil_54 : libavutil_build :=
  { LIBAVUTIL_VERSION_INT := AV_VERSION_INT 54 3 0, declares_vdpau := by decide }

/-- A build against libavutil 53.3.0, which compiles the case of VDPAU and not
the case of VDA_VLD. -/
def libavutil_53 : libavutil_build :=
  { LIBAVUTIL_VERSION_INT := AV_VERSION_INT 53 3 0, declares_vdpau := by decide }

/-- A backend whose open function returns `VLC_SUCCESS` on every input. -/
def backend_ok : module_t :=
  { pf_activate := 0x1000, pf_deactivate := 0x1010, open_result := fun _ _ _ _ _ => 0 }

/-- A backend whose open function fails on every input. -/
def backend_fail : module_t :=
  { pf_activate := 0x2000, pf_deactivate := 0x2010, open_result := fun _ _ _ _ _ => -1 }

/-- An empty call trace. -/
def s_empty : VaState := { trace := [] }

/-- A disc of twelve tracks without CD-Text, without MCN and without a CDDB
record; track n starts at sector 1000 n and the lead-out is at 225000. -/
def cd_plain : cdda_data_t :=
  { p_cdtext := fun _ => none, b_cdtext_prefer := false, b_cddb_enabled := false,
    cddb_disc := none, psz_mcn := none, i_tracks := 12,
    cdio_get_track_lsn := fun n => 1000 * (n : Int),
    cdio_get_track_lba := fun _ => 225000 }

/-- A CDDB build whose time formatter prints the seconds in decimal and whose
libcddb knows no track and no category name. -/
def env_cddb : cdda_env :=
  { HAVE_LIBCDDB := true, secstotimestr := fun n => Nat.toDigits 10 n.toNat,
    cddb_disc_get_track := fun _ _ => none, CDDB_CATEGORY := fun _ => none }

/-- The same environment in a build without libcddb. -/
def env_plain : cdda_env :=
  { env_cddb with HAVE_LIBCDDB := false }

/-- The string "cdda://" as a C string. -/
def mrl_cdda : Option (List Char) := some "cdda://".toList

/-- A CDDB disc record of the year 1999. -/
def disc_1999 : cddb_disc_t :=
  { artist := some "Artist".toList, title := some "Album".toList, genre := none,
    category := 0, discid := 0x0b0c0d0e, year := 1999 }

/-- CD-Text of a track whose only field is the title "Song". -/
def cdtext_song : cdtext_t :=
  { field := fun f => if f = cdtext_field_t.CDTEXT_TITLE then some "Song".toList else none }

/-- The plain disc with CDDB enabled, the disc record of 1999 and a CD-Text
title for track 3. -/
def cd_cddb : cdda_data_t :=
  { cd_plain with
    p_cdtext := fun i => if i = 3 then some cdtext_song else none,
    b_cddb_enabled := true,
    cddb_disc := some disc_1999 }

/-- The same disc with CDDB switched off. -/
def cd_cddb_off : cdda_data_t :=
  { cd_cddb with b_cddb_enabled := false }

/-- A CDDB build whose disc record holds, for every track, an artist and no
title. -/
def env_cddb_untitled : cdda_env :=
  { env_cddb with
    cddb_disc_get_track := fun _ _ =>
      some { title := none, artist := some "Artist".toList, ext_data := none } }

/-- The decimal representation of `t` zero-padded to two digits, in the words
of the description of the escape `T`: a leading zero below ten, the plain
decimal representation from ten on. -/
def decimal_two_digits (t : Nat) : List Char :=
  if t < 10 then '0' :: (Nat.repr t).toList else (Nat.repr t).toList

/-- The number of seconds in a number of CD frames, in the words of the
description of the escapes `s` and `S`: the frames divided by 75. -/
def seconds_of_frames (frames : Int) : Int :=
  frames / 75

/-- The value of an `int` expression stored in an `unsigned int`. -/
def int_as_unsigned (x : Int) : Int :=
  x % 2 ^ 32

/-- The duration of the whole disc in seconds, in the words of the
description of the escape `S`: the lead-out LBA, held in an `unsigned int`,
divided by 75 frames per second. -/
def disc_seconds (p_cdda : cdda_data_t) : Int :=
  seconds_of_frames (int_as_unsigned (p_cdda.cdio_get_track_lba CDIO_CDROM_LEADOUT_TRACK))

/-- The duration of track `i_track` in seconds, in the words of the
description of the escape `s`: the LSN of track `i_track + 1` minus the LSN of
track `i_track`, held in an `unsigned int`, divided by 75. -/
def track_seconds (p_cdda : cdda_data_t) (i_track : Nat) : Int :=
  seconds_of_frames (int_as_unsigned
    (p_cdda.cdio_get_track_lsn (i_track + 1) - p_cdda.cdio_get_track_lsn i_track))

/-- A CDDB build whose time formatter prints the seconds in decimal, cut to
the 21 characters that its buffer holds besides the NUL. -/
def env_clock : cdda_env :=
  { env_cddb with secstotimestr := fun n => (Nat.toDigits 10 n.toNat).take 21 }

/-! ## va.c : the chroma mapping -/

open PixelFormat

/-- C1: for the VDPAU hardware format the software formats YUVJ444P and
YUV444P give the 444 tag, YUVJ422P and YUV422P the 422 tag, YUVJ420P and
YUV420P the 420 tag. -/
theorem vlc_va_GetChroma_vdpau (b : libavutil_build) (k : vlc_fourcc_codes) :
    vlc_va_GetChroma b k AV_PIX_FMT_VDPAU AV_PIX_FMT_YUVJ444P = k.VLC_CODEC_VDPAU_VIDEO_444 ∧
    vlc_va_GetChroma b k AV_PIX_FMT_VDPAU AV_PIX_FMT_YUV444P = k.VLC_CODEC_VDPAU_VIDEO_444 ∧
    vlc_va_GetChroma b k AV_PIX_FMT_VDPAU AV_PIX_FMT_YUVJ422P = k.VLC_CODEC_VDPAU_VIDEO_422 ∧
    vlc_va_GetChroma b k AV_PIX_FMT_VDPAU AV_PIX_FMT_YUV422P = k.VLC_CODEC_VDPAU_VIDEO_422 ∧
    vlc_va_GetChroma b k AV_PIX_FMT_VDPAU AV_PIX_FMT_YUVJ420P = k.VLC_CODEC_VDPAU_VIDEO_420 ∧
    vlc_va_GetChroma b k AV_PIX_FMT_VDPAU AV_PIX_FMT_YUV420P = k.VLC_CODEC_VDPAU_VIDEO_420 := by
  have h := b.declares_vdpau
  refine ⟨?_, ?_, ?_, ?_, ?_, ?_⟩ <;> simp only [vlc_va_GetChroma, h, if_true]

/-- C2, with the build premise on the case of VDA_VLD: whatever the software
format, VAAPI_VLD and DXVA2_VLD give `VLC_CODEC_YV12` in every build, and
VDA_VLD gives `VLC_CODEC_UYVY` when va.c is built against libavutil 53.14.0
or later; in an older build the case of VDA_VLD is not compiled and the
result is the no-mapping tag 0, whatever the software format. -/
theorem vlc_va_GetChroma_fixed (b : libavutil_build) (k : vlc_fourcc_codes)
    (swfmt : PixelFormat) :
    vlc_va_GetChroma b k AV_PIX_FMT_VAAPI_VLD swfmt = k.VLC_CODEC_YV12 ∧
    vlc_va_GetChroma b k AV_PIX_FMT_DXVA2_VLD swfmt = k.VLC_CODEC_YV12 ∧
    (AV_VERSION_INT 53 14 0 ≤ b.LIBAVUTIL_VERSION_INT →
      vlc_va_GetChroma b k AV_PIX_FMT_VDA_VLD swfmt = k.VLC_CODEC_UYVY) ∧
    (b.LIBAVUTIL_VERSION_INT < AV_VERSION_INT 53 14 0 →
      vlc_va_GetChroma b k AV_PIX_FMT_VDA_VLD swfmt = 0) := by
  refine ⟨rfl, rfl, ?_, ?_⟩
  · intro h
    simp only [vlc_va_GetChroma, h, if_true]
  · intro h
    simp only [vlc_va_GetChroma, Nat.not_le.mpr h, if_false]

/-- Witness of C2 as amended, at a build against libavutil 54.3.0 and the
software format YUV420P. -/
theorem vlc_va_GetChroma_fixed_witness :
    AV_VERSION_INT 53 14 0 ≤ libavutil_54.LIBAVUTIL_VERSION_INT ∧
    vlc_va_GetChroma libavutil_54 fourcc_le AV_PIX_FMT_VAAPI_VLD AV_PIX_FMT_YUV420P
      = fourcc_le.VLC_CODEC_YV12 ∧
    vlc_va_GetChroma libavutil_54 fourcc_le AV_PIX_FMT_DXVA2_VLD AV_PIX_FMT_YUV420P
      = fourcc_le.VLC_CODEC_YV12 ∧
    vlc_va_GetChroma libavutil_54 fourcc_le AV_PIX_FMT_VDA_VLD AV_PIX_FMT_YUV420P
      = fourcc_le.VLC_CODEC_UYVY :=
  ⟨by decide,
   (vlc_va_GetChroma_fixed libavutil_54 fourcc_le AV_PIX_FMT_YUV420P).1,
   (vlc_va_GetChroma_fixed libavutil_54 fourcc_le AV_PIX_FMT_YUV420P).2.1,
   (vlc_va_GetChroma_fixed libavutil_54 fourcc_le AV_PIX_FMT_YUV420P).2.2.1 (by decide)⟩

/-- C2 as stated fails in a build against libavutil 53.3.0: the enumerator
`AV_PIX_FMT_VDA_VLD` exists, its case is not compiled (the guard of line 45
asks for 53.14.0), and the result is 0, which is not `VLC_CODEC_UYVY`. -/
theorem vlc_va_GetChroma_fixed_counterexample :
    AV_VERSION_INT 52 4 0 ≤ libavutil_53.LIBAVUTIL_VERSION_INT ∧
    libavutil_53.LIBAVUTIL_VERSION_INT < AV_VERSION_INT 53 14 0 ∧
    vlc_va_GetChroma libavutil_53 fourcc_le AV_PIX_FMT_VDA_VLD AV_PIX_FMT_YUV420P = 0 ∧
    vlc_va_GetChroma libavutil_53 fourcc_le AV_PIX_FMT_VDA_VLD AV_PIX_FMT_YUV420P
      ≠ fourcc_le.VLC_CODEC_UYVY := by
  refine ⟨?_, ?_, ?_, ?_⟩ <;> decide

/-- C3: a hardware format other than VAAPI_VLD, DXVA2_VLD, VDA_VLD and VDPAU
gives the no-mapping tag 0 for every software format. -/
theorem vlc_va_GetChroma_unrecognized (b : libavutil_build) (k : vlc_fourcc_codes)
    (hwfmt swfmt : PixelFormat)
    (hvaapi : hwfmt ≠ AV_PIX_FMT_VAAPI_VLD) (hdxva2 : hwfmt ≠ AV_PIX_FMT_DXVA2_VLD)
    (hvda : hwfmt ≠ AV_PIX_FMT_VDA_VLD) (hvdpau : hwfmt ≠ AV_PIX_FMT_VDPAU) :
    vlc_va_GetChroma b k hwfmt swfmt = 0 := by
  cases hwfmt <;> first | rfl | contradiction

/-- Witness of C3 at the hardware format YUV420P. -/
theorem vlc_va_GetChroma_unrecognized_witness :
    AV_PIX_FMT_YUV420P ≠ AV_PIX_FMT_VAAPI_VLD ∧ AV_PIX_FMT_YUV420P ≠ AV_PIX_FMT_DXVA2_VLD ∧
    AV_PIX_FMT_YUV420P ≠ AV_PIX_FMT_VDA_VLD ∧ AV_PIX_FMT_YUV420P ≠ AV_PIX_FMT_VDPAU ∧
    vlc_va_GetChroma libavutil_54 fourcc_le AV_PIX_FMT_YUV420P AV_PIX_FMT_YUV420P = 0 :=
  ⟨by decide, by decide, by decide, by decide,
   vlc_va_GetChroma_unrecognized libavutil_54 fourcc_le AV_PIX_FMT_YUV420P AV_PIX_FMT_YUV420P
     (by decide) (by decide) (by decide) (by decide)⟩

/-- C4: for the VDPAU hardware format, a software format that is none of
YUVJ444P, YUV444P, YUVJ422P, YUV422P, YUVJ420P, YUV420P gives the no-mapping
tag 0. -/
theorem vlc_va_GetChroma_vdpau_other (b : libavutil_build) (k : vlc_fourcc_codes)
    (swfmt : PixelFormat)
    (h1 : swfmt ≠ AV_PIX_FMT_YUVJ444P) (h2 : swfmt ≠ AV_PIX_FMT_YUV444P)
    (h3 : swfmt ≠ AV_PIX_FMT_YUVJ422P) (h4 : swfmt ≠ AV_PIX_FMT_YUV422P)
    (h5 : swfmt ≠ AV_PIX_FMT_YUVJ420P) (h6 : swfmt ≠ AV_PIX_FMT_YUV420P) :
    vlc_va_GetChroma b k AV_PIX_FMT_VDPAU swfmt = 0 := by
  have h := b.declares_vdpau
  cases swfmt <;> first | contradiction | simp only [vlc_va_GetChroma, h, if_true]

/-- Witness of C4 at the software format RGB24. -/
theorem vlc_va_GetChroma_vdpau_other_witness :
    AV_PIX_FMT_RGB24 ≠ AV_PIX_FMT_YUVJ444P ∧ AV_PIX_FMT_RGB24 ≠ AV_PIX_FMT_YUV444P ∧
    AV_PIX_FMT_RGB24 ≠ AV_PIX_FMT_YUVJ422P ∧ AV_PIX_FMT_RGB24 ≠ AV_PIX_FMT_YUV422P ∧
    AV_PIX_FMT_RGB24 ≠ AV_PIX_FMT_YUVJ420P ∧ AV_PIX_FMT_RGB24 ≠ AV_PIX_FMT_YUV420P ∧
    vlc_va_GetChroma libavutil_54 fourcc_le AV_PIX_FMT_VDPAU AV_PIX_FMT_RGB24 = 0 :=
  ⟨by decide, by decide, by decide, by decide, by decide, by decide,
   vlc_va_GetChroma_vdpau_other libavutil_54 fourcc_le AV_PIX_FMT_RGB24
     (by decide) (by decide) (by decide) (by decide) (by decide) (by decide)⟩

/-! ## va.c : the session lifecycle -/

/-- The open call that probing candidate `c` leaves in the trace. -/
theorem vlc_va_Start_eq (c : module_t) (ap : StartArgs) (s : VaState) :
    vlc_va_Start c ap s =
      (c.open_result ap.va ap.ctx ap.pix_fmt ap.fmt ap.p_sys,
       { trace := s.trace ++
          [Event.call_open c.pf_activate ap.va ap.ctx ap.pix_fmt ap.fmt ap.p_sys] }) := rfl

/-- Probing a list of candidates that all fail reaches no module and leaves
one open call per candidate, in order. -/
theorem vlc_module_load_all_fail (cands : List module_t) (a avctx : Nat)
    (pix_fmt : PixelFormat) (fmt p_sys : Nat) (s : VaState)
    (hfail : ∀ c ∈ cands, c.open_result a avctx pix_fmt fmt p_sys ≠ VLC_SUCCESS) :
    vlc_module_load cands vlc_va_Start
        { va := a, ctx := avctx, pix_fmt := pix_fmt, fmt := fmt, p_sys := p_sys } s =
      (none, { trace := s.trace ++ open_events cands a avctx pix_fmt fmt p_sys }) := by
  induction cands generalizing s with
  | nil => simp [vlc_module_load, open_events]
  | cons c rest ih =>
    have hc := hfail c (List.mem_cons_self c rest)
    have hrest := fun d hd => hfail d (List.mem_cons_of_mem c hd)
    simp [vlc_module_load, vlc_va_Start_eq, hc, ih _ hrest, open_events]

/-- Probing stops at the first candidate whose open succeeds. -/
theorem vlc_module_load_first_success (pre post : List module_t) (m : module_t)
    (a avctx : Nat) (pix_fmt : PixelFormat) (fmt p_sys : Nat) (s : VaState)
    (hfail : ∀ c ∈ pre, c.open_result a avctx pix_fmt fmt p_sys ≠ VLC_SUCCESS)
    (hsucc : m.open_result a avctx pix_fmt fmt p_sys = VLC_SUCCESS) :
    vlc_module_load (pre ++ m :: post) vlc_va_Start
        { va := a, ctx := avctx, pix_fmt := pix_fmt, fmt := fmt, p_sys := p_sys } s =
      (some m, { trace := s.trace ++ open_events (pre ++ [m]) a avctx pix_fmt fmt p_sys }) := by
  induction pre generalizing s with
  | nil => simp [vlc_module_load, vlc_va_Start_eq, hsucc, open_events]
  | cons c rest ih =>
    have hc := hfail c (List.mem_cons_self c rest)
    have hrest := fun d hd => hfail d (List.mem_cons_of_mem c hd)
    simp [vlc_module_load, vlc_va_Start_eq, hc, ih _ hrest, open_events]

/-- Open calls of a trace that consists of open calls only. -/
theorem open_calls_open_events (l : List module_t) (va avctx : Nat) (pix_fmt : PixelFormat)
    (fmt p_sys : Nat) :
    open_calls (open_events l va avctx pix_fmt fmt p_sys) = l.length := by
  induction l with
  | nil => rfl
  | cons c rest ih =>
    simp only [open_calls, open_events, List.map_cons, List.countP_cons] at ih ⊢
    simp [ih]

/-- A trace of open calls holds no close call. -/
theorem close_calls_open_events (l : List module_t) (va avctx : Nat) (pix_fmt : PixelFormat)
    (fmt p_sys : Nat) :
    close_calls (open_events l va avctx pix_fmt fmt p_sys) = 0 := by
  induction l with
  | nil => rfl
  | cons c rest ih =>
    simp only [close_calls, open_events, List.map_cons, List.countP_cons] at ih ⊢
    simp [ih]

/-- Open calls of a concatenated trace. -/
theorem open_calls_append (t u : List Event) :
    open_calls (t ++ u) = open_calls t + open_calls u := by
  simp [open_calls, List.countP_append]

/-- Close calls of a concatenated trace. -/
theorem close_calls_append (t u : List Event) :
    close_calls (t ++ u) = close_calls t + close_calls u := by
  simp [close_calls, List.countP_append]

/-- Releases of a concatenated trace. -/
theorem release_calls_append (t u : List Event) :
    release_calls (t ++ u) = release_calls t + release_calls u := by
  simp [release_calls, List.countP_append]

/-- The result of `vlc_va_New` when the allocation and one candidate succeed. -/
theorem vlc_va_New_success_eq (a : Nat) (pre post : List module_t) (m : module_t)
    (avctx : Nat) (pix_fmt : PixelFormat) (fmt p_sys : Nat) (s : VaState)
    (hfail : ∀ c ∈ pre, c.open_result a avctx pix_fmt fmt p_sys ≠ VLC_SUCCESS)
    (hsucc : m.open_result a avctx pix_fmt fmt p_sys = VLC_SUCCESS) :
    vlc_va_New (some a) (pre ++ m :: post) avctx pix_fmt fmt p_sys s
      = (some { self := a, module := some m },
         { trace := s.trace ++ open_events (pre ++ [m]) a avctx pix_fmt fmt p_sys }) := by
  have h := vlc_module_load_first_success pre post m a avctx pix_fmt fmt p_sys s hfail hsucc
  simp only [vlc_va_New, vlc_object_create, Option.map_some', h]

/-- The result of `vlc_va_New` when the allocation succeeds and no candidate
does. -/
theorem vlc_va_New_failure_eq (a : Nat) (cands : List module_t)
    (avctx : Nat) (pix_fmt : PixelFormat) (fmt p_sys : Nat) (s : VaState)
    (hfail : ∀ c ∈ cands, c.open_result a avctx pix_fmt fmt p_sys ≠ VLC_SUCCESS) :
    vlc_va_New (some a) cands avctx pix_fmt fmt p_sys s
      = (none, { trace := s.trace ++ open_events cands a avctx pix_fmt fmt p_sys
          ++ [Event.object_release a] }) := by
  have h := vlc_module_load_all_fail cands a avctx pix_fmt fmt p_sys s hfail
  simp only [vlc_va_New, vlc_object_create, Option.map_some', h, vlc_object_release]

/-- A list splits around its element of index K. -/
theorem candidates_split (l : List module_t) (K : Nat) (m : module_t)
    (h : l[K]? = some m) :
    l = l.take K ++ m :: l.drop (K + 1) ∧ (l.take K).length = K ∧
    l.take (K + 1) = l.take K ++ [m] := by
  obtain ⟨hlt, hm⟩ := List.getElem?_eq_some.mp h
  refine ⟨?_, ?_, ?_⟩
  · rw [← hm, ← List.drop_eq_getElem_cons hlt, List.take_append_drop]
  · simp; omega
  · rw [← hm, List.take_succ, List.getElem?_eq_getElem hlt]; rfl

/-- C5, with the premise that the session object could be allocated (at
address `a`): when the first K candidates of the ordered list `cands` fail to
open and candidate K+1, which is `m` (index K counting from 0), opens,
`vlc_va_New` returns a non-null session whose module is `m`, and the calls it
adds to the trace are the open calls of the first K+1 candidates, in order,
which are exactly K+1 open calls. -/
theorem vlc_va_New_first_success (a : Nat) (cands : List module_t) (K : Nat) (m : module_t)
    (avctx : Nat) (pix_fmt : PixelFormat) (fmt p_sys : Nat) (s : VaState)
    (hK : cands[K]? = some m)
    (hfail : ∀ c ∈ cands.take K, c.open_result a avctx pix_fmt fmt p_sys ≠ VLC_SUCCESS)
    (hsucc : m.open_result a avctx pix_fmt fmt p_sys = VLC_SUCCESS) :
    (vlc_va_New (some a) cands avctx pix_fmt fmt p_sys s).1
        = some { self := a, module := some m } ∧
    (vlc_va_New (some a) cands avctx pix_fmt fmt p_sys s).2.trace
        = s.trace ++ open_events (cands.take (K + 1)) a avctx pix_fmt fmt p_sys ∧
    open_calls (vlc_va_New (some a) cands avctx pix_fmt fmt p_sys s).2.trace
        = open_calls s.trace + (K + 1) := by
  obtain ⟨hsplit, hlen, htake⟩ := candidates_split cands K m hK
  have hnew := vlc_va_New_success_eq a (cands.take K) (cands.drop (K + 1)) m
    avctx pix_fmt fmt p_sys s hfail hsucc
  rw [← hsplit, ← htake] at hnew
  rw [hnew]
  refine ⟨rfl, rfl, ?_⟩
  show open_calls (s.trace ++ _) = _
  rw [open_calls_append, open_calls_open_events, htake]
  simp [hlen]

/-- Witness of C5 as amended: four candidates, the first two fail, the third
opens (K = 2). -/
theorem vlc_va_New_first_success_witness :
    [backend_fail, backend_fail, backend_ok, backend_fail][2]? = some backend_ok ∧
    (∀ c ∈ [backend_fail, backend_fail, backend_ok, backend_fail].take 2,
        c.open_result 7 1 AV_PIX_FMT_VDPAU 2 3 ≠ VLC_SUCCESS) ∧
    backend_ok.open_result 7 1 AV_PIX_FMT_VDPAU 2 3 = VLC_SUCCESS ∧
    ((vlc_va_New (some 7) [backend_fail, backend_fail, backend_ok, backend_fail]
        1 AV_PIX_FMT_VDPAU 2 3 s_empty).1
        = some { self := 7, module := some backend_ok } ∧
     (vlc_va_New (some 7) [backend_fail, backend_fail, backend_ok, backend_fail]
        1 AV_PIX_FMT_VDPAU 2 3 s_empty).2.trace
        = s_empty.trace ++ open_events
            ([backend_fail, backend_fail, backend_ok, backend_fail].take (2 + 1))
            7 1 AV_PIX_FMT_VDPAU 2 3 ∧
     open_calls (vlc_va_New (some 7) [backend_fail, backend_fail, backend_ok, backend_fail]
        1 AV_PIX_FMT_VDPAU 2 3 s_empty).2.trace
        = open_calls s_empty.trace + (2 + 1)) :=
  ⟨rfl, by simp [backend_fail, VLC_SUCCESS], rfl,
   vlc_va_New_first_success 7 [backend_fail, backend_fail, backend_ok, backend_fail] 2
     backend_ok 1 AV_PIX_FMT_VDPAU 2 3 s_empty rfl
     (by simp [backend_fail, VLC_SUCCESS]) rfl⟩

/-- C5 as stated fails when `vlc_object_create` returns NULL: with one
candidate, whose open succeeds (N = 1, K = 0), `vlc_va_New` returns NULL and
has made no open call, where the claim promises a session and one open call. -/
theorem vlc_va_New_first_success_counterexample :
    [backend_ok][0]? = some backend_ok ∧
    (∀ c ∈ [backend_ok].take 0, c.open_result 7 1 AV_PIX_FMT_VDPAU 2 3 ≠ VLC_SUCCESS) ∧
    backend_ok.open_result 7 1 AV_PIX_FMT_VDPAU 2 3 = VLC_SUCCESS ∧
    (vlc_va_New none [backend_ok] 1 AV_PIX_FMT_VDPAU 2 3 s_empty).1.isSome = false ∧
    open_calls (vlc_va_New none [backend_ok] 1 AV_PIX_FMT_VDPAU 2 3 s_empty).2.trace = 0 ∧
    open_calls (vlc_va_New none [backend_ok] 1 AV_PIX_FMT_VDPAU 2 3 s_empty).2.trace
      ≠ open_calls s_empty.trace + (0 + 1) :=
  ⟨rfl, by simp, rfl, rfl, rfl, by decide⟩

/-- C6: when no candidate opens, `vlc_va_New` returns NULL, issues no close
call, and the calls it adds to the trace are one open call per candidate
followed by the release of the session object it allocated (none at all when
nothing was allocated). -/
theorem vlc_va_New_all_fail (fresh : Option Nat) (cands : List module_t)
    (avctx : Nat) (pix_fmt : PixelFormat) (fmt p_sys : Nat) (s : VaState)
    (hfail : ∀ a ∈ fresh, ∀ c ∈ cands,
      c.open_result a avctx pix_fmt fmt p_sys ≠ VLC_SUCCESS) :
    (vlc_va_New fresh cands avctx pix_fmt fmt p_sys s).1.isSome = false ∧
    close_calls (vlc_va_New fresh cands avctx pix_fmt fmt p_sys s).2.trace
      = close_calls s.trace ∧
    (∀ a ∈ fresh, (vlc_va_New fresh cands avctx pix_fmt fmt p_sys s).2.trace
      = s.trace ++ open_events cands a avctx pix_fmt fmt p_sys
        ++ [Event.object_release a]) ∧
    (fresh = none → (vlc_va_New fresh cands avctx pix_fmt fmt p_sys s).2 = s) := by
  cases fresh with
  | none => simp [vlc_va_New, vlc_object_create]
  | some a =>
    rw [vlc_va_New_failure_eq a cands avctx pix_fmt fmt p_sys s (hfail a rfl)]
    refine ⟨rfl, ?_, ?_, ?_⟩
    · show close_calls (_ ++ _ ++ _) = _
      rw [close_calls_append, close_calls_append, close_calls_open_events]
      simp [close_calls]
    · intro b hb
      cases hb
      rfl
    · intro hnone
      cases hnone

/-- Witness of C6: two candidates that both fail. -/
theorem vlc_va_New_all_fail_witness :
    (∀ a ∈ (some 7 : Option Nat), ∀ c ∈ [backend_fail, backend_fail],
      c.open_result a 1 AV_PIX_FMT_VDPAU 2 3 ≠ VLC_SUCCESS) ∧
    ((vlc_va_New (some 7) [backend_fail, backend_fail] 1 AV_PIX_FMT_VDPAU 2 3
        s_empty).1.isSome = false ∧
     close_calls (vlc_va_New (some 7) [backend_fail, backend_fail] 1 AV_PIX_FMT_VDPAU 2 3
        s_empty).2.trace = close_calls s_empty.trace ∧
     (∀ a ∈ (some 7 : Option Nat),
        (vlc_va_New (some 7) [backend_fail, backend_fail] 1 AV_PIX_FMT_VDPAU 2 3
          s_empty).2.trace
        = s_empty.trace ++ open_events [backend_fail, backend_fail] a 1 AV_PIX_FMT_VDPAU 2 3
          ++ [Event.object_release a]) ∧
     ((some 7 : Option Nat) = none →
        (vlc_va_New (some 7) [backend_fail, backend_fail] 1 AV_PIX_FMT_VDPAU 2 3
          s_empty).2 = s_empty)) :=
  ⟨by simp [backend_fail, VLC_SUCCESS],
   vlc_va_New_all_fail (some 7) [backend_fail, backend_fail] 1 AV_PIX_FMT_VDPAU 2 3 s_empty
     (by simp [backend_fail, VLC_SUCCESS])⟩

/-- C7: with the single backend `m`, whose open succeeds, the session `va`
that `vlc_va_New` returns can be deleted, and `vlc_va_New` followed by
`vlc_va_Delete` adds exactly three calls to the trace: the open call, the
close call, the release of the session object; that is one open call and one
close call, the close call standing before the release. -/
theorem vlc_va_New_Delete_trace (fresh : Option Nat) (m : module_t)
    (avctx : Nat) (pix_fmt : PixelFormat) (fmt p_sys : Nat) (s s1 : VaState) (va : vlc_va_t)
    (hopen : m.open_result va.self avctx pix_fmt fmt p_sys = VLC_SUCCESS)
    (hnew : vlc_va_New fresh [m] avctx pix_fmt fmt p_sys s = (some va, s1)) :
    ∃ s2, vlc_va_Delete va avctx s1 = some s2 ∧
      s2.trace = s.trace ++
        [Event.call_open m.pf_activate va.self avctx pix_fmt fmt p_sys,
         Event.call_close m.pf_deactivate va.self avctx,
         Event.object_release va.self] ∧
      open_calls s2.trace = open_calls s.trace + 1 ∧
      close_calls s2.trace = close_calls s.trace + 1 ∧
      release_calls s2.trace = release_calls s.trace + 1 := by
  cases fresh with
  | none => simp [vlc_va_New, vlc_object_create] at hnew
  | some a =>
    by_cases hm : m.open_result a avctx pix_fmt fmt p_sys = VLC_SUCCESS
    · have h := vlc_va_New_success_eq a [] [] m avctx pix_fmt fmt p_sys s (by simp) hm
      simp only [List.nil_append] at h
      rw [h] at hnew
      simp only [Prod.mk.injEq, Option.some.injEq] at hnew
      obtain ⟨hva, hs1⟩ := hnew
      subst hva hs1
      refine ⟨_, rfl, ?_, ?_, ?_, ?_⟩
      · simp [vlc_object_release, vlc_va_Stop, open_events]
      · simp [vlc_object_release, vlc_va_Stop, open_events, open_calls_append, open_calls]
      · simp [vlc_object_release, vlc_va_Stop, open_events, close_calls_append, close_calls]
      · simp [vlc_object_release, vlc_va_Stop, open_events, release_calls_append,
          release_calls]
    · have h := vlc_va_New_failure_eq a [m] avctx pix_fmt fmt p_sys s (by simpa using hm)
      rw [h] at hnew
      simp at hnew

/-- Witness of C7: the working backend, a session object at address 7. -/
theorem vlc_va_New_Delete_trace_witness :
    backend_ok.open_result 7 1 AV_PIX_FMT_VDPAU 2 3 = VLC_SUCCESS ∧
    vlc_va_New (some 7) [backend_ok] 1 AV_PIX_FMT_VDPAU 2 3 s_empty
      = (some { self := 7, module := some backend_ok },
         { trace := [Event.call_open 0x1000 7 1 AV_PIX_FMT_VDPAU 2 3] }) ∧
    ∃ s2, vlc_va_Delete { self := 7, module := some backend_ok } 1
        { trace := [Event.call_open 0x1000 7 1 AV_PIX_FMT_VDPAU 2 3] } = some s2 ∧
      s2.trace = s_empty.trace ++
        [Event.call_open backend_ok.pf_activate 7 1 AV_PIX_FMT_VDPAU 2 3,
         Event.call_close backend_ok.pf_deactivate 7 1,
         Event.object_release 7] ∧
      open_calls s2.trace = open_calls s_empty.trace + 1 ∧
      close_calls s2.trace = close_calls s_empty.trace + 1 ∧
      release_calls s2.trace = release_calls s_empty.trace + 1 :=
  ⟨rfl, rfl,
   vlc_va_New_Delete_trace (some 7) backend_ok 1 AV_PIX_FMT_VDPAU 2 3 s_empty
     { trace := [Event.call_open 0x1000 7 1 AV_PIX_FMT_VDPAU 2 3] }
     { self := 7, module := some backend_ok } rfl rfl⟩

/-! ## info.c : the title formatter -/

/-- A character array without NUL is its own C string. -/
theorem c_str_eq_self (l : List Char) (h : ∀ c ∈ l, c ≠ NUL) : c_str l = l := by
  unfold c_str
  rw [List.takeWhile_eq_self_iff]
  intro c hc
  simpa using h c hc

/-- The C string of text followed by a NUL is the text. -/
theorem c_str_append_nul (l rest : List Char) (h : ∀ c ∈ l, c ≠ NUL) :
    c_str (l ++ NUL :: rest) = l := by
  induction l with
  | nil => simp [c_str]
  | cons c tl ih =>
    have hc : c ≠ NUL := h c (List.mem_cons_self c tl)
    have htl : c_str (tl ++ NUL :: rest) = tl :=
      ih fun d hd => h d (List.mem_cons_of_mem c hd)
    unfold c_str at htl ⊢
    simp [List.takeWhile_cons, hc, htl]

/-- A percent sign met while the flag is clear only sets the flag. -/
theorem CDDAFormatStr_step_percent_clear (env : cdda_env) (cd : cdda_data_t)
    (mrl : Option (List Char)) (tr : Nat) (mem : List Char) (tp : Nat) :
    CDDAFormatStr_step env cd mrl tr
      { temp_str := mem, tp := tp, saw_control_prefix := false } '%'
      = some { temp_str := mem, tp := tp, saw_control_prefix := true } := by
  simp [CDDAFormatStr_step, CDDAFormatStr_switch]

/-- A percent sign met while the flag is set is written and clears the flag. -/
theorem CDDAFormatStr_step_percent_set (env : cdda_env) (cd : cdda_data_t)
    (mrl : Option (List Char)) (tr : Nat) (mem : List Char) (tp : Nat)
    (h : tp < mem.length) :
    CDDAFormatStr_step env cd mrl tr
      { temp_str := mem, tp := tp, saw_control_prefix := true } '%'
      = some { temp_str := mem.set tp '%', tp := tp + 1, saw_control_prefix := false } := by
  simp [CDDAFormatStr_step, CDDAFormatStr_switch, put_char, h]

/-- Writing one more character at the end of the text of a zero-filled array. -/
theorem set_text_zeros (c z : Char) (k r : Nat) :
    (List.replicate k c ++ List.replicate (r + 1) z).set k c
      = List.replicate (k + 1) c ++ List.replicate r z := by
  rw [List.set_append]
  simp only [List.length_replicate, lt_self_iff_false, if_false, Nat.sub_self,
    List.replicate_succ, List.set_cons_zero]
  rw [← List.replicate_succ, List.replicate_succ']
  simp

/-- The loop on n escaped percent signs, started with k of them in the
buffer, ends with k + n of them in the buffer. -/
theorem CDDAFormatStr_loop_percents (env : cdda_env) (cd : cdda_data_t)
    (mrl : Option (List Char)) (tr : Nat) (n : Nat) :
    ∀ k, k + n ≤ TEMP_STR_LEN →
    CDDAFormatStr_loop env cd mrl tr (List.replicate n "%%".toList).flatten
      { temp_str := List.replicate k '%' ++ List.replicate (TEMP_STR_SIZE - k) NUL,
        tp := k, saw_control_prefix := false }
      = some { temp_str := List.replicate (k + n) '%'
                 ++ List.replicate (TEMP_STR_SIZE - (k + n)) NUL,
               tp := k + n, saw_control_prefix := false } := by
  induction n with
  | zero => intro k _; simp [CDDAFormatStr_loop]
  | succ n ih =>
    intro k hk
    have hk255 : k + (n + 1) ≤ 255 := hk
    have hlen : k < (List.replicate k '%' ++ List.replicate (TEMP_STR_SIZE - k) NUL).length := by
      simp [TEMP_STR_SIZE]; omega
    have hsplit : TEMP_STR_SIZE - k = (TEMP_STR_SIZE - (k + 1)) + 1 := by
      simp [TEMP_STR_SIZE]; omega
    have hfmt : (List.replicate (n + 1) "%%".toList).flatten
        = '%' :: '%' :: (List.replicate n "%%".toList).flatten := by
      simp [List.replicate_succ]
    rw [hfmt]
    simp only [CDDAFormatStr_loop, CDDAFormatStr_step_percent_clear,
      CDDAFormatStr_step_percent_set env cd mrl tr _ k hlen]
    have hset : (List.replicate k '%' ++ List.replicate (TEMP_STR_SIZE - k) NUL).set k '%'
        = List.replicate (k + 1) '%' ++ List.replicate (TEMP_STR_SIZE - (k + 1)) NUL := by
      rw [hsplit]; exact set_text_zeros '%' NUL k _
    rw [hset, ih (k + 1) (by simp [TEMP_STR_LEN, TEMP_STR_SIZE]; omega)]
    have e : k + 1 + n = k + (n + 1) := by omega
    rw [e]

/-- The string that `strdup` copies out of text followed by zeros. -/
theorem strdup_text_zeros (l : List Char) (r : Nat) (h : ∀ c ∈ l, c ≠ NUL) :
    strdup (l ++ List.replicate (r + 1) NUL) = some l := by
  have hc : c_str (l ++ List.replicate (r + 1) NUL) = l := by
    rw [List.replicate_succ]; exact c_str_append_nul l _ h
  have hmem : (l ++ List.replicate (r + 1) NUL).contains NUL = true := by simp
  simp only [strdup, hmem, hc, if_true]

/-- C10: whatever the CD state, a format string made of n repetitions of
"%%", n at most 255, expands to n percent signs; for n = 1 the format "%%"
expands to "%". -/
theorem CDDAFormatStr_percents (env : cdda_env) (p_cdda : cdda_data_t)
    (psz_mrl : Option (List Char)) (i_track : Nat) (n : Nat) (hn : n ≤ 255) :
    CDDAFormatStr env p_cdda (List.replicate n "%%".toList).flatten psz_mrl i_track
      = some (List.replicate n '%') := by
  have hfmt : c_str (List.replicate n "%%".toList).flatten
      = (List.replicate n "%%".toList).flatten := by
    apply c_str_eq_self
    intro c hc
    simp only [List.mem_flatten, List.mem_replicate] at hc
    obtain ⟨l, ⟨_, hl⟩, hcl⟩ := hc
    subst hl
    have : c = '%' := by simpa using hcl
    subst this
    decide
  have hloop := CDDAFormatStr_loop_percents env p_cdda psz_mrl i_track n 0
    (by simp [TEMP_STR_LEN, TEMP_STR_SIZE]; omega)
  simp only [List.replicate_zero, List.nil_append, Nat.sub_zero, Nat.zero_add] at hloop
  have hsplit : TEMP_STR_SIZE - n = (TEMP_STR_SIZE - n - 1) + 1 := by
    simp [TEMP_STR_SIZE]; omega
  unfold CDDAFormatStr
  rw [hfmt]
  unfold CDDAFormatStr_init
  rw [hloop]
  show strdup (List.replicate n '%' ++ List.replicate (TEMP_STR_SIZE - n) NUL) = _
  rw [hsplit]
  apply strdup_text_zeros
  intro c hc
  have : c = '%' := (List.mem_replicate.mp hc).2
  subst this
  decide

/-- Witness of C10 at n = 1: the format "%%" on the plain disc. -/
theorem CDDAFormatStr_percents_witness :
    1 ≤ 255 ∧
    CDDAFormatStr env_cddb cd_plain (List.replicate 1 "%%".toList).flatten mrl_cdda 3
      = some (List.replicate 1 '%') :=
  ⟨by decide, CDDAFormatStr_percents env_cddb cd_plain mrl_cdda 3 1 (by decide)⟩

set_option maxRecDepth 100000 in
/-- C9 at its failing inputs.  On a disc without MCN the formats "%m" and "n"
expand to "" and "n", yet "%mn" expands to "12", the number of tracks: the
NULL datum leaves `saw_control_prefix` set and the next character is read as
an escape.  Likewise with the invalid track 255 the formats "%t" and "T"
expand to "" and "T", yet "%tT" expands to "255".  The same holds in the
build without libcddb.  So the expansion of "%m" followed by "n" is not the
expansion of "%m" followed by the expansion of "n". -/
theorem CDDAFormatStr_missing_datum_escape :
    cd_plain.psz_mcn = none ∧
    CDDAFormatStr env_cddb cd_plain "%m".toList mrl_cdda 3 = some "".toList ∧
    CDDAFormatStr env_cddb cd_plain "n".toList mrl_cdda 3 = some "n".toList ∧
    CDDAFormatStr env_cddb cd_plain ("%m".toList ++ "n".toList) mrl_cdda 3
      = some "12".toList ∧
    CDDAFormatStr env_cddb cd_plain "%t".toList mrl_cdda CDIO_INVALID_TRACK
      = some "".toList ∧
    CDDAFormatStr env_cddb cd_plain "T".toList mrl_cdda CDIO_INVALID_TRACK
      = some "T".toList ∧
    CDDAFormatStr env_cddb cd_plain ("%t".toList ++ "T".toList) mrl_cdda CDIO_INVALID_TRACK
      = some "255".toList ∧
    CDDAFormatStr env_plain cd_plain ("%m".toList ++ "n".toList) mrl_cdda 3
      = some "12".toList ∧
    CDDAFormatStr env_plain cd_plain ("%t".toList ++ "T".toList) mrl_cdda CDIO_INVALID_TRACK
      = some "255".toList ∧
    CDDAFormatStr env_cddb cd_plain ("%m".toList ++ "n".toList) mrl_cdda 3
      ≠ (CDDAFormatStr env_cddb cd_plain "%m".toList mrl_cdda 3).bind fun out_f =>
          (CDDAFormatStr env_cddb cd_plain "n".toList mrl_cdda 3).map fun out_g =>
            out_f ++ out_g := by
  refine ⟨rfl, ?_, ?_, ?_, ?_, ?_, ?_, ?_, ?_, ?_⟩ <;> decide

/-! ## info.c : a single escape on the empty buffer -/

/-- No character of a C string is NUL. -/
theorem c_str_no_nul (a : List Char) : ∀ c ∈ c_str a, c ≠ NUL := by
  intro c hc
  have h := List.mem_takeWhile_imp hc
  simpa using h

/-- The room that `strncat` is given at the start of the buffer. -/
theorem strncat_room_zero : strncat_room 0 = TEMP_STR_LEN := by
  decide

/-- The search for the end of the destination string stops at once on a
zero-filled array. -/
theorem find_nul_zeros (m : Nat) : find_nul (List.replicate (m + 1) NUL) 0 = some 0 := by
  simp [find_nul, strlen, c_str, List.replicate_succ]

/-- The call of `strncat` at the start of the zero-filled buffer copies a
string of at most 255 characters whole. -/
theorem strncat_zeros (str : List Char) (h : strlen str ≤ TEMP_STR_LEN) :
    strncat (List.replicate TEMP_STR_SIZE NUL) 0 str (strncat_room 0)
      = some (c_str str ++ List.replicate (TEMP_STR_SIZE - strlen str) NUL) := by
  have hsz : TEMP_STR_SIZE = 256 := rfl
  have h255 : strlen str ≤ 255 := h
  have hfind : find_nul (List.replicate TEMP_STR_SIZE NUL) 0 = some 0 :=
    find_nul_zeros 255
  have hmin : min (strlen str) TEMP_STR_LEN = strlen str := Nat.min_eq_left h
  have htake : (c_str str).take (strlen str) = c_str str := by
    unfold strlen
    exact List.take_length _
  have hlt : 0 + strlen str < (List.replicate TEMP_STR_SIZE NUL).length := by
    rw [List.length_replicate]; omega
  have hdrop : (List.replicate TEMP_STR_SIZE NUL).drop (0 + strlen str + 1)
      = List.replicate (TEMP_STR_SIZE - strlen str - 1) NUL := by
    rw [List.drop_replicate]
    congr 1
    omega
  have hrep : [NUL] ++ List.replicate (TEMP_STR_SIZE - strlen str - 1) NUL
      = List.replicate (TEMP_STR_SIZE - strlen str) NUL := by
    have e : TEMP_STR_SIZE - strlen str = (TEMP_STR_SIZE - strlen str - 1) + 1 := by
      omega
    rw [e, List.replicate_succ]
    rfl
  simp only [strncat, hfind, strncat_room_zero, hmin, hlt, if_true, htake, hdrop,
    List.take_zero, List.nil_append, List.append_assoc, hrep]

/-- The macro `add_format_str_info` on the empty buffer: a string of at most
255 characters is copied whole and the flag is cleared. -/
theorem add_format_str_info_zeros (str : List Char) (flag : Bool)
    (h : strlen str ≤ TEMP_STR_LEN) :
    add_format_str_info (some str)
        { temp_str := List.replicate TEMP_STR_SIZE NUL, tp := 0, saw_control_prefix := flag }
      = some { temp_str := c_str str ++ List.replicate (TEMP_STR_SIZE - strlen str) NUL,
               tp := strlen str, saw_control_prefix := false } := by
  have h255 : strlen str ≤ 255 := h
  have hmod : strlen str % 2 ^ 32 = strlen str := Nat.mod_eq_of_lt (by omega)
  unfold add_format_str_info
  dsimp only
  rw [hmod]
  split
  · rw [strncat_zeros str h, Nat.zero_add]
  · rename_i hz
    have h0 : strlen str = 0 := by simpa using hz
    have hnil : c_str str = [] := List.length_eq_zero.mp h0
    rw [h0, hnil]
    rfl

/-- The macro `add_format_num_info` on the empty buffer: a number text of
fewer than ten characters is copied whole and the flag is cleared. -/
theorem add_format_num_info_zeros (num : List Char) (flag : Bool)
    (hlen : num.length < 10) (hnul : ∀ c ∈ num, c ≠ NUL) :
    add_format_num_info num
        { temp_str := List.replicate TEMP_STR_SIZE NUL, tp := 0, saw_control_prefix := flag }
      = some { temp_str := num ++ List.replicate (TEMP_STR_SIZE - num.length) NUL,
               tp := num.length, saw_control_prefix := false } := by
  have hc : c_str num = num := c_str_eq_self num hnul
  have hs : strlen num = num.length := by simp [strlen, hc]
  have hfit : strlen num ≤ TEMP_STR_LEN := by
    rw [hs]; show num.length ≤ 255; omega
  have hcat := strncat_zeros num hfit
  rw [hc, hs] at hcat
  unfold add_format_num_info
  rw [if_pos hlen]
  dsimp only
  rw [hs]
  split
  · rw [hcat, Nat.zero_add]
  · rename_i hz
    have h0 : num.length = 0 := by simpa using hz
    have hnil : num = [] := List.length_eq_zero.mp h0
    subst hnil
    rfl

/-- The string that `strdup` copies out of the buffer after one such copy. -/
theorem strdup_c_str_zeros (str : List Char) (h : strlen str ≤ TEMP_STR_LEN) :
    strdup (c_str str ++ List.replicate (TEMP_STR_SIZE - strlen str) NUL)
      = some (c_str str) := by
  have hsz : TEMP_STR_SIZE = 256 := rfl
  have h255 : strlen str ≤ 255 := h
  have e : TEMP_STR_SIZE - strlen str = (TEMP_STR_SIZE - strlen str - 1) + 1 := by omega
  rw [e]
  exact strdup_text_zeros (c_str str) _ (c_str_no_nul str)

/-- The expansion of a format made of one escape: the switch runs once, on the
empty buffer with the flag set, and the buffer is copied out. -/
theorem CDDAFormatStr_escape (env : cdda_env) (cd : cdda_data_t)
    (mrl : Option (List Char)) (tr : Nat) (c : Char) (hc : c ≠ '%') (hn : c ≠ NUL) :
    CDDAFormatStr env cd ['%', c] mrl tr
      = (CDDAFormatStr_switch env cd mrl tr c
          { temp_str := List.replicate TEMP_STR_SIZE NUL, tp := 0,
            saw_control_prefix := true }).bind fun s => strdup s.temp_str := by
  have hstr : c_str ['%', c] = ['%', c] := by
    apply c_str_eq_self
    intro d hd
    simp only [List.mem_cons, List.mem_singleton, List.not_mem_nil, or_false] at hd
    rcases hd with rfl | rfl
    · decide
    · exact hn
  have hstep : CDDAFormatStr_step env cd mrl tr
      { temp_str := List.replicate TEMP_STR_SIZE NUL, tp := 0, saw_control_prefix := true } c
      = CDDAFormatStr_switch env cd mrl tr c
          { temp_str := List.replicate TEMP_STR_SIZE NUL, tp := 0,
            saw_control_prefix := true } := by
    simp [CDDAFormatStr_step]
  unfold CDDAFormatStr
  rw [hstr]
  simp only [CDDAFormatStr_loop, CDDAFormatStr_init, CDDAFormatStr_step_percent_clear, hstep]
  cases CDDAFormatStr_switch env cd mrl tr c
      { temp_str := List.replicate TEMP_STR_SIZE NUL, tp := 0,
        saw_control_prefix := true } <;> rfl

/-! ## info.c : the escapes `T`, `s` and `S` -/

/-- The case `T` of the switch (lines 732-734). -/
theorem CDDAFormatStr_switch_T (env : cdda_env) (cd : cdda_data_t)
    (mrl : Option (List Char)) (tr : Nat) (s : FmtState) :
    CDDAFormatStr_switch env cd mrl tr 'T' s
      = add_format_num_info (sprintf_d true 2 ((tr % 256 : Nat) : Int)) s := by
  rfl

set_option maxRecDepth 100000 in
/-- The text that `sprintf` makes of a track number with "%02d": it is the
two-digit decimal representation, shorter than `num_str` and free of NUL. -/
theorem sprintf_d_track (t : Nat) (ht : t < 256) :
    sprintf_d true 2 ((t : Nat) : Int) = decimal_two_digits t ∧
    (decimal_two_digits t).length < 10 ∧
    (decimal_two_digits t).all (fun c => c != NUL) = true ∧
    (decimal_two_digits t).length = (if t < 100 then 2 else 3) := by
  revert t
  decide

/-- C13: for every track number t from 0 to 255, whatever the rest of the CD
state, the format "%T" expands to the decimal representation of t zero-padded
to two digits, which has two characters below 100 and three from 100 on. -/
theorem CDDAFormatStr_track_number (env : cdda_env) (p_cdda : cdda_data_t)
    (psz_mrl : Option (List Char)) (t : Nat) (ht : t ≤ 255) :
    CDDAFormatStr env p_cdda "%T".toList psz_mrl t = some (decimal_two_digits t) ∧
    (t < 100 → (decimal_two_digits t).length = 2) ∧
    (100 ≤ t → (decimal_two_digits t).length = 3) := by
  have hlt : t < 256 := by omega
  obtain ⟨hsp, hlen, hall, hdigits⟩ := sprintf_d_track t hlt
  have hnul : ∀ c ∈ decimal_two_digits t, c ≠ NUL := by
    intro c hc
    have := List.all_eq_true.mp hall c hc
    simpa using this
  have hmod : t % 256 = t := Nat.mod_eq_of_lt hlt
  have hfmt : "%T".toList = ['%', 'T'] := rfl
  have hstr : c_str (decimal_two_digits t) = decimal_two_digits t :=
    c_str_eq_self _ hnul
  have hfit : strlen (decimal_two_digits t) ≤ TEMP_STR_LEN := by
    show (c_str (decimal_two_digits t)).length ≤ 255
    rw [hstr]; omega
  have hdup := strdup_c_str_zeros (decimal_two_digits t) hfit
  rw [hstr] at hdup
  have hlen' : strlen (decimal_two_digits t) = (decimal_two_digits t).length := by
    simp [strlen, hstr]
  rw [hlen'] at hdup
  refine ⟨?_, ?_, ?_⟩
  · rw [hfmt, CDDAFormatStr_escape env p_cdda psz_mrl t 'T' (by decide) (by decide),
      CDDAFormatStr_switch_T, hmod, hsp,
      add_format_num_info_zeros (decimal_two_digits t) true hlen hnul]
    exact hdup
  · intro h100
    rw [hdigits, if_pos h100]
  · intro h100
    rw [hdigits, if_neg (by omega)]

/-- Witness of C13 at track 7 of the plain disc. -/
theorem CDDAFormatStr_track_number_witness :
    7 ≤ 255 ∧
    (CDDAFormatStr env_cddb cd_plain "%T".toList mrl_cdda 7 = some (decimal_two_digits 7) ∧
     (7 < 100 → (decimal_two_digits 7).length = 2) ∧
     (100 ≤ 7 → (decimal_two_digits 7).length = 3)) :=
  ⟨by decide, CDDAFormatStr_track_number env_cddb cd_plain mrl_cdda 7 (by decide)⟩

/-- The case `S` of the switch (lines 707-718). -/
theorem CDDAFormatStr_switch_S (env : cdda_env) (cd : cdda_data_t)
    (mrl : Option (List Char)) (tr : Nat) (s : FmtState) :
    CDDAFormatStr_switch env cd mrl tr 'S' s = case_S env cd s := by
  rfl

/-- The case `s` of the switch (lines 692-706), which falls through to the
case `S` for the invalid track. -/
theorem CDDAFormatStr_switch_s (env : cdda_env) (cd : cdda_data_t)
    (mrl : Option (List Char)) (tr : Nat) (s : FmtState) :
    CDDAFormatStr_switch env cd mrl tr 's' s
      = if tr % 256 ≠ CDIO_INVALID_TRACK then
          add_format_str_info (some (env.secstotimestr
            ((((cd.cdio_get_track_lsn ((tr % 256 + 1) % 256)
                - cd.cdio_get_track_lsn (tr % 256)) % (2 ^ 32 : Int)).toNat
              / CDIO_CD_FRAMES_PER_SEC : Nat) : Int))) s
        else case_S env cd s := by
  rfl

/-- The frame count held in an `unsigned int` and divided by 75, as the code
computes it on machine integers, is the seconds of that frame count. -/
theorem frames_to_seconds (x : Int) :
    ((((x % (2 ^ 32 : Int)).toNat / CDIO_CD_FRAMES_PER_SEC : Nat)) : Int)
      = seconds_of_frames (int_as_unsigned x) := by
  have hnn : 0 ≤ x % (2 ^ 32 : Int) := Int.emod_nonneg _ (by norm_num)
  unfold seconds_of_frames int_as_unsigned CDIO_CD_FRAMES_PER_SEC
  rw [Int.natCast_div, Int.toNat_of_nonneg hnn]
  rfl

/-- A frame count that an `unsigned int` holds unchanged. -/
theorem int_as_unsigned_of_range (x : Int) (h0 : 0 ≤ x) (h1 : x < 2 ^ 32) :
    int_as_unsigned x = x := by
  unfold int_as_unsigned
  exact Int.emod_eq_of_lt h0 h1

/-- The case `S` copies the time string of the duration of the disc. -/
theorem case_S_eq (env : cdda_env) (cd : cdda_data_t) (s : FmtState) :
    case_S env cd s = add_format_str_info (some (env.secstotimestr (disc_seconds cd))) s := by
  unfold case_S disc_seconds
  dsimp only
  rw [frames_to_seconds]

/-- The expansion of a format made of one escape whose case copies one
string of at most 255 characters. -/
theorem CDDAFormatStr_escape_str (env : cdda_env) (cd : cdda_data_t)
    (mrl : Option (List Char)) (tr : Nat) (c : Char) (str : List Char)
    (hc : c ≠ '%') (hn : c ≠ NUL) (hfit : strlen str ≤ TEMP_STR_LEN)
    (hsw : CDDAFormatStr_switch env cd mrl tr c
        { temp_str := List.replicate TEMP_STR_SIZE NUL, tp := 0, saw_control_prefix := true }
      = add_format_str_info (some str)
        { temp_str := List.replicate TEMP_STR_SIZE NUL, tp := 0,
          saw_control_prefix := true }) :
    CDDAFormatStr env cd ['%', c] mrl tr = some (c_str str) := by
  rw [CDDAFormatStr_escape env cd mrl tr c hc hn, hsw,
    add_format_str_info_zeros str true hfit]
  exact strdup_c_str_zeros str hfit

/-- The time formatter of `env_clock` stays within the buffer. -/
theorem env_clock_fits (d : Int) : strlen (env_clock.secstotimestr d) ≤ TEMP_STR_LEN := by
  have h1 : strlen (env_clock.secstotimestr d) ≤ (env_clock.secstotimestr d).length :=
    (List.takeWhile_prefix _).length_le
  have h2 : (env_clock.secstotimestr d).length ≤ 21 := by
    show ((Nat.toDigits 10 d.toNat).take 21).length ≤ 21
    rw [List.length_take]
    exact Nat.min_le_left _ _
  show _ ≤ 255
  omega

/-- C12: for a track number of the type `track_t` and a time formatter whose
strings fit the buffer, the format "%S" expands to the time string of the
whole-disc duration (lead-out LBA divided by 75); with the invalid track the
format "%s" expands to the same string as "%S"; with any other track "%s"
expands to the time string of the duration computed from the LSN of track
`i_track + 1` minus the LSN of track `i_track`, divided by 75.  The frame
counts are held in an `unsigned int`, which leaves every count from 0 to
2^32 - 1 as it is. -/
theorem CDDAFormatStr_seconds (env : cdda_env) (p_cdda : cdda_data_t)
    (psz_mrl : Option (List Char)) (i_track : Nat) (ht : i_track ≤ 255)
    (hfit : ∀ d, strlen (env.secstotimestr d) ≤ TEMP_STR_LEN) :
    CDDAFormatStr env p_cdda "%S".toList psz_mrl i_track
      = some (c_str (env.secstotimestr (disc_seconds p_cdda))) ∧
    (i_track = CDIO_INVALID_TRACK →
      CDDAFormatStr env p_cdda "%s".toList psz_mrl i_track
        = CDDAFormatStr env p_cdda "%S".toList psz_mrl i_track) ∧
    (i_track ≠ CDIO_INVALID_TRACK →
      CDDAFormatStr env p_cdda "%s".toList psz_mrl i_track
        = some (c_str (env.secstotimestr (track_seconds p_cdda i_track)))) ∧
    (∀ frames : Int, 0 ≤ frames → frames < 2 ^ 32 →
      seconds_of_frames (int_as_unsigned frames) = frames / 75) := by
  have hS : "%S".toList = ['%', 'S'] := rfl
  have hs : "%s".toList = ['%', 's'] := rfl
  have hinv : CDIO_INVALID_TRACK = 255 := rfl
  have hmod : i_track % 256 = i_track := Nat.mod_eq_of_lt (by omega)
  have hdisc : CDDAFormatStr env p_cdda ['%', 'S'] psz_mrl i_track
      = some (c_str (env.secstotimestr (disc_seconds p_cdda))) := by
    apply CDDAFormatStr_escape_str env p_cdda psz_mrl i_track 'S' _ (by decide) (by decide)
      (hfit _)
    rw [CDDAFormatStr_switch_S, case_S_eq]
  refine ⟨by rw [hS]; exact hdisc, ?_, ?_, ?_⟩
  · intro hi
    rw [hs, hS, hdisc]
    apply CDDAFormatStr_escape_str env p_cdda psz_mrl i_track 's' _ (by decide) (by decide)
      (hfit _)
    rw [CDDAFormatStr_switch_s, hmod, if_neg (by simp [hi]), case_S_eq]
  · intro hi
    have hnext : (i_track + 1) % 256 = i_track + 1 := Nat.mod_eq_of_lt (by omega)
    rw [hs]
    apply CDDAFormatStr_escape_str env p_cdda psz_mrl i_track 's' _ (by decide) (by decide)
      (hfit _)
    rw [CDDAFormatStr_switch_s, hmod, if_pos hi, hnext, frames_to_seconds]
    rfl
  · intro frames h0 h1
    rw [int_as_unsigned_of_range frames h0 h1]
    rfl

/-- Witness of C12 at track 3 of the plain disc, whose tracks are 1000
sectors long: 13 seconds. -/
theorem CDDAFormatStr_seconds_witness :
    3 ≤ 255 ∧
    (∀ d, strlen (env_clock.secstotimestr d) ≤ TEMP_STR_LEN) ∧
    (CDDAFormatStr env_clock cd_plain "%S".toList mrl_cdda 3
        = some (c_str (env_clock.secstotimestr (disc_seconds cd_plain))) ∧
     (3 = CDIO_INVALID_TRACK →
        CDDAFormatStr env_clock cd_plain "%s".toList mrl_cdda 3
          = CDDAFormatStr env_clock cd_plain "%S".toList mrl_cdda 3) ∧
     (3 ≠ CDIO_INVALID_TRACK →
        CDDAFormatStr env_clock cd_plain "%s".toList mrl_cdda 3
          = some (c_str (env_clock.secstotimestr (track_seconds cd_plain 3)))) ∧
     (∀ frames : Int, 0 ≤ frames → frames < 2 ^ 32 →
        seconds_of_frames (int_as_unsigned frames) = frames / 75)) :=
  ⟨by decide, env_clock_fits,
   CDDAFormatStr_seconds env_clock cd_plain mrl_cdda 3 (by decide) env_clock_fits⟩

/-! ## info.c : the escapes `t` and `Y` -/

/-- The case `t` of the switch (lines 601-620) in the CDDB build, with CDDB
enabled, a disc record and a track other than the invalid one. -/
theorem CDDAFormatStr_switch_t_cddb (env : cdda_env) (cd : cdda_data_t)
    (mrl : Option (List Char)) (tr : Nat) (s : FmtState)
    (hb : env.HAVE_LIBCDDB = true) (he : cd.b_cddb_enabled = true)
    (hd : cd.cddb_disc.isSome = true) (ht : tr % 256 ≠ CDIO_INVALID_TRACK) :
    CDDAFormatStr_switch env cd mrl tr 't' s
      = match env.cddb_disc_get_track cd.cddb_disc ((tr % 256 : Nat) - 1 : Int) with
        | none => add_format_str_info mrl s
        | some t =>
          match t.title with
          | none => add_format_str_info mrl s
          | some title => add_format_str_info (some title) s := by
  have h : CDDAFormatStr_switch env cd mrl tr 't' s
      = if tr % 256 = CDIO_INVALID_TRACK then some s
        else if env.HAVE_LIBCDDB then
          if cd.b_cddb_enabled && cd.cddb_disc.isSome then
            match env.cddb_disc_get_track cd.cddb_disc ((tr % 256 : Nat) - 1 : Int) with
            | none => add_format_str_info mrl s
            | some t =>
              match t.title with
              | none => add_format_str_info mrl s
              | some title => add_format_str_info (some title) s
          else
            match cdtext_psz cd (tr % 256) cdtext_field_t.CDTEXT_TITLE with
            | none => add_format_str_info mrl s
            | some title => add_format_str_info (some title) s
        else
          match cdtext_psz cd (tr % 256) cdtext_field_t.CDTEXT_TITLE with
          | none => goto_format_str mrl s
          | some title => goto_format_str (some title) s := rfl
  rw [h, if_neg ht, hb, he, hd]
  rfl

/-- In the CDDB build, with CDDB enabled and a disc record in which the track
has no title, the format "%t" expands to the MRL (of at most 255 characters)
whatever the CD-Text of the track holds. -/
theorem CDDAFormatStr_title_cddb_untitled (env : cdda_env) (cd : cdda_data_t)
    (mrl : List Char) (tr : Nat)
    (hb : env.HAVE_LIBCDDB = true) (he : cd.b_cddb_enabled = true)
    (hd : cd.cddb_disc.isSome = true) (ht : tr % 256 ≠ CDIO_INVALID_TRACK)
    (hno : (env.cddb_disc_get_track cd.cddb_disc ((tr % 256 : Nat) - 1 : Int)).bind
      (fun t => t.title) = none)
    (hfit : strlen mrl ≤ TEMP_STR_LEN) :
    CDDAFormatStr env cd "%t".toList (some mrl) tr = some (c_str mrl) := by
  have hfmt : "%t".toList = ['%', 't'] := rfl
  rw [hfmt]
  apply CDDAFormatStr_escape_str env cd (some mrl) tr 't' mrl (by decide) (by decide) hfit
  rw [CDDAFormatStr_switch_t_cddb env cd (some mrl) tr _ hb he hd ht]
  cases hg : env.cddb_disc_get_track cd.cddb_disc ((tr % 256 : Nat) - 1 : Int) with
  | none => rfl
  | some t =>
    rw [hg] at hno
    have htitle : t.title = none := by simpa using hno
    simp only [htitle]

set_option maxRecDepth 100000 in
/-- C11 at its failing input.  Track 3 has the CD-Text title "Song"; CDDB is
enabled and has a disc record, whose entry for the track has no title.  The
format "%t" expands to the MRL "cdda://", not to "Song", and does so too when
the disc record has no entry for the track at all.  With CDDB switched off,
or in the build without libcddb, the same disc gives "Song". -/
theorem CDDAFormatStr_title_ignores_cdtext :
    cdtext_psz cd_cddb 3 cdtext_field_t.CDTEXT_TITLE = some "Song".toList ∧
    cd_cddb.b_cddb_enabled = true ∧
    cd_cddb.cddb_disc = some disc_1999 ∧
    (env_cddb_untitled.cddb_disc_get_track cd_cddb.cddb_disc 2).map (fun t => t.title)
      = some none ∧
    CDDAFormatStr env_cddb_untitled cd_cddb "%t".toList mrl_cdda 3
      = some "cdda://".toList ∧
    env_cddb.cddb_disc_get_track cd_cddb.cddb_disc 2 = none ∧
    CDDAFormatStr env_cddb cd_cddb "%t".toList mrl_cdda 3 = some "cdda://".toList ∧
    CDDAFormatStr env_cddb_untitled cd_cddb_off "%t".toList mrl_cdda 3
      = some "Song".toList ∧
    CDDAFormatStr env_plain cd_cddb "%t".toList mrl_cdda 3 = some "Song".toList := by
  refine ⟨rfl, rfl, rfl, rfl, ?_, rfl, ?_, ?_, ?_⟩ <;> decide

/-- The case `Y` of the switch (lines 596-600) in the CDDB build, with CDDB
enabled and a disc record. -/
theorem CDDAFormatStr_switch_Y (env : cdda_env) (cd : cdda_data_t)
    (mrl : Option (List Char)) (tr : Nat) (s : FmtState) (disc : cddb_disc_t)
    (hb : env.HAVE_LIBCDDB = true) (he : cd.b_cddb_enabled = true)
    (hd : cd.cddb_disc = some disc) :
    CDDAFormatStr_switch env cd mrl tr 'Y' s
      = add_format_num_info (sprintf_d false 5 (unsigned_as_int disc.year)) s := by
  have h : CDDAFormatStr_switch env cd mrl tr 'Y' s
      = if env.HAVE_LIBCDDB then
          if !cd.b_cddb_enabled then goto_not_special 'Y' s
          else
            match cd.cddb_disc with
            | none => some s
            | some disc =>
              add_format_num_info (sprintf_d false 5 (unsigned_as_int disc.year)) s
        else goto_not_special 'Y' s := rfl
  rw [h, hb, he, hd]
  rfl

set_option maxRecDepth 100000 in
/-- The text that `sprintf` makes of a year from 1900 to 2099 with "%5d": a
blank, then the four digits. -/
theorem sprintf_d_year (k : Nat) (hk : k < 200) :
    sprintf_d false 5 (unsigned_as_int (1900 + k)) = ' ' :: (Nat.repr (1900 + k)).toList ∧
    (' ' :: (Nat.repr (1900 + k)).toList).length = 5 ∧
    (' ' :: (Nat.repr (1900 + k)).toList).all (fun c => c != NUL) = true := by
  revert k
  decide

/-- In the CDDB build, with CDDB enabled and a disc record of a year from
1900 to 2099, the format "%Y" expands to a blank followed by the four digits
of the year, whatever the rest of the CD state. -/
theorem CDDAFormatStr_year_blank (env : cdda_env) (cd : cdda_data_t)
    (mrl : Option (List Char)) (tr : Nat) (disc : cddb_disc_t)
    (hb : env.HAVE_LIBCDDB = true) (he : cd.b_cddb_enabled = true)
    (hd : cd.cddb_disc = some disc) (h1 : 1900 ≤ disc.year) (h2 : disc.year ≤ 2099) :
    CDDAFormatStr env cd "%Y".toList mrl tr
      = some (' ' :: (Nat.repr disc.year).toList) := by
  obtain ⟨k, hk⟩ : ∃ k, disc.year = 1900 + k := ⟨disc.year - 1900, by omega⟩
  obtain ⟨hsp, hlen, hall⟩ := sprintf_d_year k (by omega)
  rw [← hk] at hsp hlen hall
  have hnul : ∀ c ∈ ' ' :: (Nat.repr disc.year).toList, c ≠ NUL := by
    intro c hc
    have := List.all_eq_true.mp hall c hc
    simpa using this
  have hstr : c_str (' ' :: (Nat.repr disc.year).toList)
      = ' ' :: (Nat.repr disc.year).toList := c_str_eq_self _ hnul
  have hs : strlen (' ' :: (Nat.repr disc.year).toList) = 5 := by
    unfold strlen
    rw [hstr, hlen]
  have hfit : strlen (' ' :: (Nat.repr disc.year).toList) ≤ TEMP_STR_LEN := by
    rw [hs]; decide
  have hdup := strdup_c_str_zeros _ hfit
  rw [hstr, hs] at hdup
  have hfmt : "%Y".toList = ['%', 'Y'] := rfl
  rw [hfmt, CDDAFormatStr_escape env cd mrl tr 'Y' (by decide) (by decide),
    CDDAFormatStr_switch_Y env cd mrl tr _ disc hb he hd, hsp,
    add_format_num_info_zeros _ true (by rw [hlen]; decide) hnul, hlen]
  exact hdup

set_option maxRecDepth 100000 in
/-- C14 at its failing input.  In the CDDB build, with CDDB enabled and a
disc record of the year 1999, the format "%Y" expands to " 1999", five
characters of which the first is a blank, not to the four digits "1999"; the
conversion is "%5d". -/
theorem CDDAFormatStr_year_padded :
    env_cddb.HAVE_LIBCDDB = true ∧
    cd_cddb.b_cddb_enabled = true ∧
    cd_cddb.cddb_disc.map (fun d => d.year) = some 1999 ∧
    CDDAFormatStr env_cddb cd_cddb "%Y".toList mrl_cdda 3 = some " 1999".toList ∧
    CDDAFormatStr env_cddb cd_cddb "%Y".toList mrl_cdda 3 ≠ some "1999".toList := by
  refine ⟨rfl, rfl, rfl, ?_, ?_⟩ <;> decide

end VLC
